import Mathlib

/-!
Verification of the simperby governance module (`src/governance/src/lib.rs`).

The governance code itself (`create`, `open`, `read`, `vote`, `advance`,
`fetch`) is translated directly from the source.  External collaborators
(the distributed message set `DMS`, durable `Storage`, serde serialization
and the signature service) are not part of the provided sources; they are
modelled from the specification's interface contracts (each such
definition carries a doc comment starting `Modelled from the spec:`).
Fallible external effects (network sends, log advance, fetch) are made
explicit by boolean outcome parameters, so every operation is a pure,
executable function.  Each operation that mutates `&mut self` in Rust
returns both the call result and the post-call state.
-/

abbrev BlockHeight := Nat

abbrev Hash256 := Nat

/-- Modelled from the spec: a validator public key (signature service is
external). -/
structure PublicKey where
  key : Nat
deriving DecidableEq, Repr

/-- Modelled from the spec: a validator private key (signature service is
external). -/
structure PrivateKey where
  key : Nat
deriving DecidableEq, Repr

/-- Modelled from the spec: the public key corresponding to a private key. -/
def PrivateKey.public_key (sk : PrivateKey) : PublicKey := ⟨sk.key⟩

/-- Modelled from the spec: a content signature over a fixed-size hash,
represented symbolically as the signer identity together with the signed
hash (an honest signing operation is the only way such a value arises in
the model; a forged value is any value whose fields do not match). -/
structure Signature where
  signer : Nat
  msg : Hash256
deriving DecidableEq, Repr

/-- Modelled from the spec: producing a signature over a hash with a
private key (`Signature::sign`). -/
def Signature.sign (h : Hash256) (sk : PrivateKey) : Signature :=
  ⟨sk.key, h⟩

/-- Modelled from the spec: signature verification against a claimed
public key (`must verify against voter`). -/
def Signature.verify (sig : Signature) (h : Hash256) (pk : PublicKey) : Bool :=
  sig.signer = pk.key && sig.msg = h

/-- The signed payload a voter broadcasts (struct `Vote` in the source). -/
structure Vote where
  agenda_hash : Hash256
  voter : PublicKey
  signature : Signature
deriving DecidableEq, Repr

/-- The persisted governance state (struct `GovernanceState`): agenda
hashes and their voters, plus the current height.  `HashMap<Hash256,
HashSet<PublicKey>>` is modelled as an association list from hash to the
list of voters. -/
structure GovernanceState where
  votes : List (Hash256 × List PublicKey)
  height : BlockHeight
deriving DecidableEq, Repr

/-- Look up the voter set recorded for an agenda hash (absent key reads as
the empty set, matching `HashMap` semantics for membership queries). -/
def votesLookup (votes : List (Hash256 × List PublicKey)) (a : Hash256) :
    List PublicKey :=
  match votes.find? (fun p => p.1 = a) with
  | some p => p.2
  | none => []

/-- Modelled from the spec: the serialized byte strings exchanged with
storage and the wire (serde_json is external and assumed correct, so a
serialized value is represented by a constructor application; `garbage`
stands for any bytes that deserialize as neither form). -/
inductive Blob
  | voteBlob (v : Vote)
  | stateBlob (s : GovernanceState)
  | garbage (n : Nat)
deriving DecidableEq, Repr

/-- Modelled from the spec: the outer transport signature over serialized
message data, produced with the node's network identity key. -/
structure TypedSignature where
  signer : Nat
  msg : Blob
deriving DecidableEq, Repr

/-- Modelled from the spec: producing the outer transport signature
(`TypedSignature::sign`). -/
def TypedSignature.sign (data : Blob) (sk : PrivateKey) : TypedSignature :=
  ⟨sk.key, data⟩

/-- Modelled from the spec: error taxonomy.  The source uses a dynamic
error type (`anyhow::Error`); the spec's closed set of variants is used so
theorems can name the failure class. -/
inductive Error
  | heightMismatch (actual expected : BlockHeight)
  | networkError
  | propagationError
  | signatureError
  | notFound
  | deserializationError
deriving DecidableEq, Repr

/-- Modelled from the spec: a wire message of the distributed message set,
an envelope of serialized content plus outer transport signature. -/
structure Message where
  data : Blob
  signature : TypedSignature
deriving DecidableEq, Repr

/-- Modelled from the spec: `Message::new` accepts the content and an
outer signature and fails with a signature-class error unless the
signature is over exactly that content. -/
def Message.new (data : Blob) (sig : TypedSignature) : Except Error Message :=
  if sig.msg = data then .ok ⟨data, sig⟩ else .error .signatureError

/-- Modelled from the spec: durable named-blob storage. -/
abbrev Storage := List (String × Blob)

/-- Modelled from the spec: `add_or_overwrite_file(name, bytes)`. -/
def Storage.add_or_overwrite_file (st : Storage) (name : String) (b : Blob) :
    Storage :=
  (name, b) :: st.filter (fun p => p.1 ≠ name)

/-- Modelled from the spec: `read_file(name)`, failing with a
not-found-class error when no such blob exists. -/
def Storage.read_file (st : Storage) (name : String) : Except Error Blob :=
  match st.find? (fun p => p.1 = name) with
  | some p => .ok p.2
  | none => .error .notFound

/-- Modelled from the spec: the distributed message set (DMS), a
height-scoped append-only log with its attached storage.  Only its
interface contract is used: `read_height`, `add_message`, `fetch`,
`advance`. -/
structure DMS where
  height : BlockHeight
  messages : List Message
  storage : Storage
deriving DecidableEq, Repr

/-- Modelled from the spec: `read_height` returns the authoritative
current height of the log. -/
def DMS.read_height (d : DMS) : BlockHeight := d.height

/-- Modelled from the spec: `add_message` submits a message to the log for
propagation; the boolean parameter is the outcome of the external network
operation (failure is a propagation-class error and leaves the log
unchanged). -/
def DMS.add_message (d : DMS) (msg : Message) (ok : Bool) :
    Except Error Unit × DMS :=
  if ok then (.ok (), { d with messages := d.messages ++ [msg] })
  else (.error .propagationError, d)

/-- Modelled from the spec: `fetch` pulls new messages from peers into the
locally iterable log; it fails only if the network operation itself cannot
complete, never because of the content of an individual message. -/
def DMS.fetch (d : DMS) (newMsgs : List Message) (ok : Bool) :
    Except Error Unit × DMS :=
  if ok then (.ok (), { d with messages := d.messages ++ newMsgs })
  else (.error .networkError, d)

/-- Modelled from the spec: `advance` commits the current height's segment
and opens the next; on failure the log is unchanged. -/
def DMS.advance (d : DMS) (ok : Bool) : Except Error Unit × DMS :=
  if ok then (.ok (), { d with height := d.height + 1, messages := [] })
  else (.error .networkError, d)

/-- The state file name used by `create` and `open` (`STATE_FILE_NAME`). -/
def STATE_FILE_NAME : String := "state.json"

/-- The governance instance: the DMS handle and the in-memory state
(struct `Governance`). -/
structure Governance where
  dms : DMS
  state : GovernanceState
deriving DecidableEq, Repr

namespace Governance

/-- `Governance::create`: writes a fresh serialized
`GovernanceState { votes: empty, height }` to the DMS's storage under
`STATE_FILE_NAME` and returns (the storage write is modelled as
succeeding; the resulting DMS handle over the updated storage is
returned to the caller). -/
def create (dms : DMS) (height : BlockHeight) : DMS :=
  { dms with
    storage :=
      dms.storage.add_or_overwrite_file STATE_FILE_NAME
        (Blob.stateBlob { votes := [], height := height }) }

/-- Deserializing the persisted state blob (`serde_json::from_str` in
`open`); any blob that is not a serialized `GovernanceState` fails with a
deserialization-class error. -/
def deserializeState (b : Blob) : Except Error GovernanceState :=
  match b with
  | .stateBlob s => .ok s
  | _ => .error .deserializationError

/-- `Governance::open`: reads and deserializes the persisted state from
the DMS's storage and returns the governance instance bound to that DMS.
(Named with a trailing underscore because `open` is a Lean keyword.) -/
def open_ (dms : DMS) : Except Error Governance :=
  match dms.storage.read_file STATE_FILE_NAME with
  | .error e => .error e
  | .ok b =>
    match deserializeState b with
    | .error e => .error e
    | .ok state => .ok { dms := dms, state := state }

/-- `Governance::read`: returns a clone of the in-memory state. -/
def read (g : Governance) : Except Error GovernanceState :=
  .ok g.state

/-- `Governance::vote`: builds the `Vote` record signed with the voter's
private key, serializes it, wraps it in a message transport-signed with
the node's network identity key (`networkKey`), and submits it to the log.
The local `state` field is never touched.  `addOk` is the outcome of the
external `add_message` network operation. -/
def vote (g : Governance) (networkKey : PrivateKey) (agenda_hash : Hash256)
    (private_key : PrivateKey) (addOk : Bool) :
    Except Error Unit × Governance :=
  let data := Blob.voteBlob
    { agenda_hash := agenda_hash
      voter := private_key.public_key
      signature := Signature.sign agenda_hash private_key }
  match Message.new data (TypedSignature.sign data networkKey) with
  | .error e => (.error e, g)
  | .ok message =>
    let (r, dms) := g.dms.add_message message addOk
    match r with
    | .error e => (.error e, { g with dms := dms })
    | .ok _ => (.ok (), { g with dms := dms })

/-- `Governance::advance`: reads the authoritative height from the log,
fails with the height-mismatch error if it differs from
`height_to_assert`, otherwise instructs the log to advance.  The local
`state` field is never touched (the source mutates nothing besides the
DMS).  `advanceOk` is the outcome of the external log-advance operation. -/
def advance (g : Governance) (height_to_assert : BlockHeight)
    (advanceOk : Bool) : Except Error Unit × Governance :=
  let height := g.dms.read_height
  if height ≠ height_to_assert then
    (.error (.heightMismatch height height_to_assert), g)
  else
    let (r, dms) := g.dms.advance advanceOk
    match r with
    | .error e => (.error e, { g with dms := dms })
    | .ok _ => (.ok (), { g with dms := dms })

/-- `Governance::fetch`: delegates to the DMS's fetch, pulling new
messages from peers into the local log; the local `state` field is never
touched.  `newMsgs` are the messages the network delivers and `fetchOk`
the outcome of the network operation. -/
def fetch (g : Governance) (newMsgs : List Message) (fetchOk : Bool) :
    Except Error Unit × Governance :=
  let (r, dms) := g.dms.fetch newMsgs fetchOk
  match r with
  | .error e => (.error e, { g with dms := dms })
  | .ok _ => (.ok (), { g with dms := dms })

end Governance

/-- Governance states reachable through the module's API: an instance
obtained by `open` on storage freshly written by `create`, followed by any
sequence of `vote`, `fetch` and `advance` calls (successful or not). -/
inductive Reachable : Governance → Prop
  | created (dms : DMS) (h : BlockHeight) (g : Governance) :
      Governance.open_ (Governance.create dms h) = .ok g → Reachable g
  | voteStep (g : Governance) (nk : PrivateKey) (a : Hash256)
      (sk : PrivateKey) (ok : Bool) : Reachable g →
      Reachable (g.vote nk a sk ok).2
  | fetchStep (g : Governance) (msgs : List Message) (ok : Bool) :
      Reachable g → Reachable (g.fetch msgs ok).2
  | advanceStep (g : Governance) (h : BlockHeight) (ok : Bool) :
      Reachable g → Reachable (g.advance h ok).2

/-! Concrete sample values used to exercise the operations. -/

def skV1 : PrivateKey := ⟨1⟩

def netKey : PrivateKey := ⟨9⟩

def agendaA : Hash256 := 7

def dms0 : DMS := { height := 5, messages := [], storage := [] }

def g5 : Governance := { dms := dms0, state := { votes := [], height := 5 } }

def gW : Governance :=
  { dms := Governance.create dms0 5, state := { votes := [], height := 5 } }

def gMismatch : Governance :=
  { dms := { height := 6, messages := [], storage := [] }
    state := { votes := [(agendaA, [skV1.public_key])], height := 5 } }

def gTally : Governance :=
  { dms := dms0
    state := { votes := [(agendaA, [skV1.public_key])], height := 5 } }

/-- A valid vote record: V1 endorses agenda A, content-signed with V1's
private key. -/
def vValid : Vote :=
  { agenda_hash := agendaA
    voter := skV1.public_key
    signature := Signature.sign agendaA skV1 }

def voteDataV1A : Blob := Blob.voteBlob vValid

/-- The wire message `vote` produces for `vValid`, transport-signed with
the node's network identity key. -/
def voteMsgV1A : Message :=
  { data := voteDataV1A, signature := TypedSignature.sign voteDataV1A netKey }

/-- A forged vote record: it claims voter 3 but its signature was produced
by key 2, so verification against the claimed voter fails. -/
def vForged : Vote :=
  { agenda_hash := agendaA, voter := ⟨3⟩, signature := ⟨2, agendaA⟩ }

def mForged : Message :=
  { data := Blob.voteBlob vForged
    signature := TypedSignature.sign (Blob.voteBlob vForged) netKey }

/-! Helper lemmas shared by the claim theorems. -/

lemma vote_state_eq (g : Governance) (nk : PrivateKey) (a : Hash256)
    (sk : PrivateKey) (ok : Bool) : (g.vote nk a sk ok).2.state = g.state := by
  cases ok <;>
    simp [Governance.vote, Message.new, TypedSignature.sign, DMS.add_message]

lemma fetch_state_eq (g : Governance) (msgs : List Message) (ok : Bool) :
    (g.fetch msgs ok).2.state = g.state := by
  cases ok <;> simp [Governance.fetch, DMS.fetch]

lemma advance_state_eq (g : Governance) (h : BlockHeight) (ok : Bool) :
    (g.advance h ok).2.state = g.state := by
  by_cases hc : g.dms.read_height ≠ h
  · simp [Governance.advance, hc]
  · cases ok <;> simp [Governance.advance, hc, DMS.advance]

lemma open_create_eq (dms : DMS) (h : BlockHeight) :
    Governance.open_ (Governance.create dms h) =
      .ok { dms := Governance.create dms h
            state := { votes := [], height := h } } := by
  simp [Governance.open_, Governance.create, Storage.read_file,
    Storage.add_or_overwrite_file, Governance.deserializeState, List.find?]

lemma reachable_votes_empty (g : Governance) (hg : Reachable g) :
    g.state.votes = [] := by
  induction hg with
  | created dms h g hopen =>
      rw [open_create_eq] at hopen
      injection hopen with h2
      subst h2
      rfl
  | voteStep g nk a sk ok hgr ih => rw [vote_state_eq]; exact ih
  | fetchStep g msgs ok hgr ih => rw [fetch_state_eq]; exact ih
  | advanceStep g h ok hgr ih => rw [advance_state_eq]; exact ih

/-! Claim theorems. -/

/-- C1 (code evaluated at the failing input): with local votes
`{A ↦ {V1}}` at height 5 and the log at height 5, `advance 5` passes the
fencing check and the log advance succeeds, yet afterwards the local votes
mapping still contains `{A ↦ {V1}}` (it is not emptied) and the local
height field is still 5 (it is not incremented), contradicting the
source's own doc comment "Advances the block height, discarding all the
votes." -/
theorem advance_success_keeps_votes_and_height :
    (gTally.advance 5 true).1 = .ok () ∧
    (gTally.advance 5 true).2.state.votes = [(agendaA, [skV1.public_key])] ∧
    (gTally.advance 5 true).2.state.height = 5 := by
  refine ⟨rfl, rfl, rfl⟩

/-- C2: whenever the log's actual height differs from `height_to_assert`,
`advance` returns the height-mismatch failure and returns with the entire
governance instance unchanged — in particular the local votes mapping and
height field are untouched and the log was not instructed to advance. -/
theorem advance_height_mismatch (g : Governance) (h : BlockHeight)
    (ok : Bool) (hne : g.dms.read_height ≠ h) :
    g.advance h ok =
      (.error (.heightMismatch g.dms.read_height h), g) := by
  simp [Governance.advance, hne]

/-- Witness for C2: log height 6, asserted height 5 (spec Scenario D). -/
theorem advance_height_mismatch_witness :
    gMismatch.dms.read_height ≠ 5 ∧
    gMismatch.advance 5 true =
      (.error (.heightMismatch 6 5), gMismatch) :=
  ⟨by decide, advance_height_mismatch gMismatch 5 true (by decide)⟩

/-- C3 counterexample: a message carrying a VoteRecord whose content
signature verifies against its voter (V1 voting for agenda A) is newly
observed by a successful `fetch`, yet afterwards V1 is not a member of
`votes[A]` — `votes[A]` is still empty, not `{V1}` as the claim states. -/
theorem fetch_vote_not_tallied_counterexample :
    voteMsgV1A.data = Blob.voteBlob vValid ∧
    Signature.verify vValid.signature vValid.agenda_hash vValid.voter = true ∧
    (g5.fetch [voteMsgV1A] true).1 = .ok () ∧
    votesLookup (g5.fetch [voteMsgV1A] true).2.state.votes agendaA = [] ∧
    vValid.voter ∉
      votesLookup (g5.fetch [voteMsgV1A] true).2.state.votes agendaA := by
  refine ⟨rfl, by decide, rfl, rfl, by decide⟩

/-- C3 (amended): `fetch` only delegates to the log's fetch — newly
observed messages are appended to the local log, and no deserialization,
verification or tallying takes place: the local governance state (votes
mapping and height) is unchanged by every `fetch` call. -/
theorem fetch_delegates_and_leaves_votes (g : Governance)
    (msgs : List Message) (ok : Bool) :
    (g.fetch msgs ok).2.state = g.state ∧
    (g.fetch msgs true).2.dms.messages = g.dms.messages ++ msgs := by
  refine ⟨fetch_state_eq g msgs ok, by simp [Governance.fetch, DMS.fetch]⟩

/-- C4: in every reachable governance state, ingesting (via `fetch`) a
batch containing a VoteRecord whose signature does not verify against its
claimed voter never makes that voter a member of `votes[agenda_hash]`, and
the presence of the bad record does not abort the fetch of the batch
(fetch succeeds whenever the network operation itself completes). -/
theorem forged_vote_never_tallied (g : Governance) (msgs : List Message)
    (ok : Bool) (v : Vote) (m : Message) (hg : Reachable g) (hm : m ∈ msgs)
    (hdata : m.data = Blob.voteBlob v)
    (hbad : Signature.verify v.signature v.agenda_hash v.voter = false) :
    v.voter ∉
      votesLookup (g.fetch msgs ok).2.state.votes v.agenda_hash ∧
    (g.fetch msgs true).1 = .ok () := by
  constructor
  · rw [fetch_state_eq, reachable_votes_empty g hg]
    simp [votesLookup]
  · simp [Governance.fetch, DMS.fetch]

/-- Witness for C4: a freshly created-and-opened instance ingests a batch
holding a forged record claiming voter 3; voter 3 never enters the tally
for agenda A and the fetch succeeds. -/
theorem forged_vote_never_tallied_witness :
    Reachable gW ∧ mForged ∈ [mForged] ∧
    mForged.data = Blob.voteBlob vForged ∧
    Signature.verify vForged.signature vForged.agenda_hash vForged.voter
      = false ∧
    (vForged.voter ∉
        votesLookup (gW.fetch [mForged] true).2.state.votes
          vForged.agenda_hash ∧
      (gW.fetch [mForged] true).1 = .ok ()) :=
  ⟨Reachable.created dms0 5 gW (open_create_eq dms0 5), by decide, rfl,
    by decide,
    forged_vote_never_tallied gW [mForged] true vForged mForged
      (Reachable.created dms0 5 gW (open_create_eq dms0 5)) (by decide) rfl
      (by decide)⟩

/-- C5: ingestion into the tally is idempotent — for a valid VoteRecord
(fixed voter, agenda hash and height), fetching its message a second time
leaves `votes[agenda_hash]` exactly equal to its value after the first
fetch. -/
theorem fetch_ingestion_idempotent (g : Governance) (v : Vote)
    (m : Message) (ok₁ ok₂ : Bool) (hdata : m.data = Blob.voteBlob v)
    (hvalid :
      Signature.verify v.signature v.agenda_hash v.voter = true) :
    votesLookup ((g.fetch [m] ok₁).2.fetch [m] ok₂).2.state.votes
        v.agenda_hash =
      votesLookup (g.fetch [m] ok₁).2.state.votes v.agenda_hash := by
  rw [fetch_state_eq]

/-- Witness for C5: V1's valid vote for agenda A ingested twice. -/
theorem fetch_ingestion_idempotent_witness :
    voteMsgV1A.data = Blob.voteBlob vValid ∧
    Signature.verify vValid.signature vValid.agenda_hash vValid.voter
      = true ∧
    votesLookup
        ((g5.fetch [voteMsgV1A] true).2.fetch [voteMsgV1A] true).2.state.votes
        vValid.agenda_hash =
      votesLookup (g5.fetch [voteMsgV1A] true).2.state.votes
        vValid.agenda_hash :=
  ⟨rfl, by decide,
    fetch_ingestion_idempotent g5 vValid voteMsgV1A true true rfl
      (by decide)⟩

/-- C6: `create` followed by `open` on the same storage with no
intervening writes succeeds and yields a state with an empty votes mapping
and the created height; in particular `create(height=5)` then `open`
yields `{votes: {}, height: 5}`. -/
theorem create_open_roundtrip (dms : DMS) (h : BlockHeight) :
    Governance.open_ (Governance.create dms h) =
      .ok { dms := Governance.create dms h
            state := { votes := [], height := h } } :=
  open_create_eq dms h

/-- C7: `vote` is a broadcast intent — whatever the outcome of the
network submission, the local governance state (votes mapping and height
field) is unchanged when the call returns. -/
theorem vote_is_broadcast_intent (g : Governance) (nk : PrivateKey)
    (a : Hash256) (sk : PrivateKey) (ok : Bool) :
    (g.vote nk a sk ok).2.state = g.state :=
  vote_state_eq g nk a sk ok

/-- C8: a successful `vote` submits to the log exactly one new message
whose payload is a VoteRecord with voter field the public key
corresponding to `private_key` and signature field a signature over
`agenda_hash` by `private_key` (which verifies against the voter), the
serialized record being wrapped in an envelope signed separately with the
node's network identity key. -/
theorem vote_submits_signed_record (g : Governance) (nk : PrivateKey)
    (a : Hash256) (sk : PrivateKey) (ok : Bool)
    (hok : (g.vote nk a sk ok).1 = .ok ()) :
    (g.vote nk a sk ok).2.dms.messages =
      g.dms.messages ++
        [{ data := Blob.voteBlob
             { agenda_hash := a, voter := sk.public_key
               signature := Signature.sign a sk }
           signature := TypedSignature.sign
             (Blob.voteBlob
               { agenda_hash := a, voter := sk.public_key
                 signature := Signature.sign a sk }) nk }] ∧
    Signature.verify (Signature.sign a sk) a sk.public_key = true := by
  cases ok with
  | false =>
      exfalso
      simp [Governance.vote, Message.new, TypedSignature.sign,
        DMS.add_message] at hok
  | true =>
      constructor
      · simp [Governance.vote, Message.new, TypedSignature.sign,
          DMS.add_message]
      · simp [Signature.verify, Signature.sign, PrivateKey.public_key]

/-- Witness for C8: V1 votes for agenda A on a fresh instance and the
submission succeeds. -/
theorem vote_submits_signed_record_witness :
    (g5.vote netKey agendaA skV1 true).1 = .ok () ∧
    ((g5.vote netKey agendaA skV1 true).2.dms.messages =
        g5.dms.messages ++ [voteMsgV1A] ∧
      Signature.verify (Signature.sign agendaA skV1) agendaA
        skV1.public_key = true) :=
  ⟨rfl, vote_submits_signed_record g5 netKey agendaA skV1 true rfl⟩

/-- C9: when the fencing check passes but the log's own advance fails,
`advance` returns the error and the whole governance instance is
unchanged — local votes and height keep their values and the log has not
advanced, so no partial update is observable in this call. -/
theorem advance_log_failure_all_or_nothing (g : Governance)
    (h : BlockHeight) (hfence : g.dms.read_height = h) :
    g.advance h false = (.error Error.networkError, g) := by
  simp [Governance.advance, hfence, DMS.advance]

/-- Witness for C9: fence passes at height 5 and the log advance fails. -/
theorem advance_log_failure_all_or_nothing_witness :
    g5.dms.read_height = 5 ∧
    g5.advance 5 false = (.error Error.networkError, g5) :=
  ⟨rfl, advance_log_failure_all_or_nothing g5 5 rfl⟩

/-- C10: `read` never fails and performs no recomputation or mutation —
for every governance state it returns `Ok` of the in-memory
`GovernanceState` itself (taking the instance immutably, so the state is
unchanged), without consulting the log or storage. -/
theorem read_returns_state_copy (g : Governance) :
    g.read = .ok g.state :=
  rfl
